import Mathlib

/-!
Shallow embedding of `src/addons/web/static/src/core/utils/hooks.js`
(Odoo web hooks: useAutofocus, useBus, useListener, useService).

The JavaScript file is glue code over the owl component framework.  We embed
each hook as a pure Lean function over explicit state:

* promises are modelled by an `Outcome` type (fulfilled / rejected / pending);
  the settlement of the underlying service call is a `Settled` value;
* the owl component status is a `Nat`, with `2` the DESTROYED code used by the
  source (`component.__owl__.status === 2`);
* the DOM is modelled by ancestor chains (lists of element ids) plus a
  selector-matching predicate, exactly what the delegation loop inspects;
* the event bus is a list of `(eventName, listener)` registrations with
  append / remove-first semantics, and a dispatch that invokes every listener
  registered for the event, in order.
-/

namespace Hooks

/-! ## Promise model for `_protectMethod` -/

/-- Settlement of the underlying service call: a JavaScript promise that has
settled is either fulfilled with a value or rejected with an error message. -/
inductive Settled (α : Type) where
  | fulfilled (v : α)
  | rejected (err : String)
deriving DecidableEq, Repr

/-- Observable outcome of the promise returned by a wrapper: fulfilled,
rejected, or permanently pending (the `new Promise(() => \x7b\x7d)` the source
returns to swallow a result into a dead component). -/
inductive Outcome (α : Type) where
  | fulfilled (v : α)
  | rejected (err : String)
  | pending
deriving DecidableEq, Repr

/-- Status code the source compares against: `component.__owl__.status === 2`
means the component is destroyed. -/
def DESTROYED : Nat := 2

/-- Record of one invocation of a method wrapped by `_protectMethod`:
whether the underlying `fn` was invoked at all, and the outcome of the
promise the wrapper returned. -/
structure ProtectedCall (α : Type) where
  fnInvoked : Bool
  outcome : Outcome α
deriving DecidableEq, Repr

/-- Embedding of the wrapper produced by `_protectMethod(component, caller, fn)`
(hooks.js lines 162-170), applied to one call.  `statusAtCall` is the owl
status of the owning component when the wrapper is called; `statusAfterAwait`
is its status when the underlying call settles; `fnOutcome` is how the
underlying call settles.  The source reads:

    if (component.__owl__.status === 2) \x7b throw new Error("Component is destroyed"); \x7d
    const result = await fn.call(caller, ...args);
    return component.__owl__.status === 2 ? new Promise(() => \x7b\x7d) : result;

The `throw` happens in the synchronous prefix of the async function, before
`fn` could run, so the rejection is fixed at call time.  If `fn` rejects, the
`await` rethrows and the wrapper rejects with the same error (the post-await
status check is never reached).  If `fn` fulfills, the post-await status check
either suppresses the value (a never-settling promise) or passes it through. -/
def protectMethodCall {α : Type} (statusAtCall statusAfterAwait : Nat)
    (fnOutcome : Settled α) : ProtectedCall α :=
  if statusAtCall = 2 then
    { fnInvoked := false, outcome := Outcome.rejected "Component is destroyed" }
  else
    match fnOutcome with
    | Settled.rejected err => { fnInvoked := true, outcome := Outcome.rejected err }
    | Settled.fulfilled v =>
      if statusAfterAwait = 2 then
        { fnInvoked := true, outcome := Outcome.pending }
      else
        { fnInvoked := true, outcome := Outcome.fulfilled v }

/-! ## useService -/

/-- Result of `useService(serviceName)` (hooks.js lines 178-198).  The source
either throws a lookup error, returns the registry value unchanged, wraps a
callable service with `_protectMethod(component, null, service)`, or builds
`Object.create(service)` with each metadata-listed method wrapped.  The
constructors record which of those four paths was taken, carrying the exact
service value that flowed into it. -/
inductive UseServiceResult (σ : Type) where
  | error (msg : String)
  | value (s : σ)
  | protectedFn (s : σ)
  | protectedObj (s : σ) (methods : List String)
deriving DecidableEq, Repr

/-- Embedding of `useService` (hooks.js lines 178-198).  `services` is the
environment service registry `component.env.services` as an association list
(JavaScript object: keys unique, first binding wins), `metadata` is the
imported `SERVICES_METADATA` map, and `serviceIsFunction` decides the
`service instanceof Function` test. -/
def useService {σ : Type} (metadata : List (String × List String))
    (services : List (String × σ)) (serviceIsFunction : σ → Bool)
    (serviceName : String) : UseServiceResult σ :=
  match services.lookup serviceName with
  | none => UseServiceResult.error ("Service " ++ serviceName ++ " is not available")
  | some service =>
    match metadata.lookup serviceName with
    | some methods =>
      if serviceIsFunction service then UseServiceResult.protectedFn service
      else UseServiceResult.protectedObj service methods
    | none => UseServiceResult.value service

/-- Key lookup in an association list fails exactly when the key is absent
from the key list (with lawful `==` on `String`). -/
theorem lookup_eq_none_of_not_mem_keys {σ : Type} (l : List (String × σ)) (k : String)
    (h : k ∉ l.map Prod.fst) : l.lookup k = none := by
  induction l with
  | nil => rfl
  | cons p rest ih =>
    simp only [List.map_cons, List.mem_cons, not_or] at h
    have hk : (k == p.1) = false := by
      exact beq_eq_false_iff_ne.mpr h.1
    cases p with
    | mk a b =>
      simp only [List.lookup]
      simp only [List.map_cons] at hk ⊢
      rw [hk]
      exact ih h.2

/-! ## useListener -/

/-- JavaScript value passed as an argument to `useListener`, as far as the
`typeof` tests in the source distinguish them: a string, a function
(identified by an id), `undefined`, or anything else. -/
inductive JSArg where
  | str (s : String)
  | func (id : Nat)
  | undef
  | other
deriving DecidableEq, Repr

/-- Test `typeof a === "function"`. -/
def JSArg.isFunctionTy : JSArg → Bool
  | JSArg.func _ => true
  | _ => false

/-- Arguments of `useListener` after the overload normalisation. -/
structure ResolvedArgs where
  querySelector : Option String
  handler : JSArg
deriving DecidableEq, Repr

/-- Embedding of the argument normalisation at the top of `useListener`
(hooks.js lines 115-120): if `typeof arguments[1] !== "string"` then the
selector becomes `null` and the second argument is the handler; otherwise the
second argument is the selector and the third the handler. -/
def resolveListenerArgs (arg1 arg2 : JSArg) : ResolvedArgs :=
  match arg1 with
  | JSArg.str s => { querySelector := some s, handler := arg2 }
  | a => { querySelector := none, handler := a }

/-- Outcome of calling `useListener` during setup: either the error thrown by
the handler type check (before `useComponent`/`useEffect` run, so before any
registration), or a registration of the (possibly delegated) handler. -/
inductive ListenerSetup where
  | error (msg : String)
  | registered (eventName : String) (querySelector : Option String) (handlerId : Nat)
deriving DecidableEq, Repr

/-- Embedding of the setup phase of `useListener` (hooks.js lines 115-156):
normalise the arguments, throw if the resolved handler is not a function,
otherwise register the handler (with its delegation selector) on the
component root element. -/
def useListener (eventName : String) (arg1 arg2 : JSArg) : ListenerSetup :=
  let args := resolveListenerArgs arg1 arg2
  match args.handler with
  | JSArg.func id => ListenerSetup.registered eventName args.querySelector id
  | _ => ListenerSetup.error "The handler must be a function"

/-- Embedding of the delegation loop inside the bound handler built by
`useListener` when a selector is given (hooks.js lines 128-139), walking the
ancestor chain of the event target.  `chain` lists the element ids starting at
`ev.target` and following `parentElement` links up to the document root;
`matchesSel e` is `e.matches(querySelector)`; `compEl` is `comp.el`.  The
result is true exactly when the loop exits with `el` non-null, i.e. when
`handler.call(comp, ev)` runs (hooks.js lines 140-142):

    let el = ev.target;
    let target;
    while (el && !target) \x7b
      if (el.matches(querySelector)) \x7b target = el; \x7d
      else if (el === comp.el) \x7b el = null; \x7d
      else \x7b el = el.parentElement; \x7d
    \x7d
    if (el) \x7b handler.call(comp, ev); \x7d -/
def delegatedHandlerFires (matchesSel : Nat → Bool) (compEl : Nat) : List Nat → Bool
  | [] => false
  | e :: rest =>
    if matchesSel e then true
    else if e = compEl then false
    else delegatedHandlerFires matchesSel compEl rest

/-- Ancestor chain truncated at the component root element: the prefix of the
chain up to and including the first occurrence of `compEl` (the whole chain if
`compEl` does not occur).  This is the set of elements the delegation walk can
examine. -/
def chainStoppingAt (compEl : Nat) : List Nat → List Nat
  | [] => []
  | e :: rest => if e = compEl then [e] else e :: chainStoppingAt compEl rest

/-- Model of dispatching a DOM event through the listener `useListener`
registered on `comp.el`: DOM propagation delivers the event to a listener on
`compEl` only when `compEl` lies on the ancestor chain of the event target
(the listener is registered on the component root, hooks.js line 149); the
delegated bound handler then runs its ancestor walk and, on success, invokes
`handler.call(comp, ev)` — the returned pair records that call, with `comp`
as the `this` context. -/
def dispatchDelegated (matchesSel : Nat → Bool) (comp compEl : Nat)
    (chain : List Nat) (ev : Nat) : Option (Nat × Nat) :=
  if compEl ∈ chain then
    if delegatedHandlerFires matchesSel compEl chain then some (comp, ev) else none
  else none

/-! ## useBus -/

/-- Listener actually registered by `useBus`: `callback.bind(component)`,
i.e. the callback together with the component it was bound to as the
execution context. -/
structure BoundListener where
  cb : Nat
  ctx : Nat
deriving DecidableEq, Repr

/-- Event bus state: the list of `(eventName, listener)` registrations in
registration order. -/
abbrev Bus : Type := List (String × BoundListener)

/-- Registration of a listener: `bus.addEventListener(eventName, listener)`
appends the pair (the listener is freshly created by `.bind`, so it is never
already registered). -/
def addEventListener (b : Bus) (eventName : String) (l : BoundListener) : Bus :=
  b ++ [(eventName, l)]

/-- Removal of a listener: `bus.removeEventListener(eventName, listener)`
removes the registration of that exact listener for that event, if any. -/
def removeEventListener : Bus → String → BoundListener → Bus
  | [], _, _ => []
  | (e, x) :: rest, eventName, l =>
    if e = eventName ∧ x = l then rest
    else (e, x) :: removeEventListener rest eventName l

/-- Dispatch of `eventName` on the bus: every listener registered for that
event is invoked once, in registration order. -/
def dispatch (b : Bus) (eventName : String) : List BoundListener :=
  (b.filter (fun p => p.1 == eventName)).map Prod.snd

/-- Embedding of the effect mounted by `useBus(bus, eventName, callback)`
(hooks.js lines 68-78): on mount, bind the callback to the component and add
it as a bus listener; the returned cleanup removes exactly that listener on
teardown.  The result is the bus after mount together with the cleanup
function. -/
def useBusEffect (bus : Bus) (eventName : String) (cb comp : Nat) :
    Bus × (Bus → Bus) :=
  let listener : BoundListener := { cb := cb, ctx := comp }
  (addEventListener bus eventName listener,
   fun b => removeEventListener b eventName listener)

/-! ## useAutofocus -/

/-- DOM element as seen by the autofocus effect: tag name, current value, the
selection bounds, and whether native focus has been applied to it. -/
structure FocusTarget where
  tagName : String
  value : String
  selectionStart : Nat
  selectionEnd : Nat
  focused : Bool
deriving DecidableEq, Repr

/-- Embedding of the effect body of `useAutofocus` (hooks.js lines 42-49):
when the referenced element is present, call native focus on it, and if its
tag is INPUT or TEXTAREA set both selection bounds to the length of its
value; when the element is absent, do nothing. -/
def autofocusEffect : Option FocusTarget → Option FocusTarget
  | none => none
  | some el =>
    let focusedEl := { el with focused := true }
    if ["INPUT", "TEXTAREA"].contains focusedEl.tagName then
      some { focusedEl with selectionStart := focusedEl.value.length,
                            selectionEnd := focusedEl.value.length }
    else
      some focusedEl

/-- Embedding of the `focusOnUpdate` trigger returned by `useAutofocus` in the
non-mobile branch (hooks.js lines 52-54): it increments `forceFocusCount`. -/
def focusOnUpdate (forceFocusCount : Nat) : Nat := forceFocusCount + 1

/-- Dependency tuple of the autofocus effect (hooks.js line 50):
`() => [ref.el, forceFocusCount]`. -/
def autofocusDeps (refEl : Option FocusTarget) (forceFocusCount : Nat) :
    Option FocusTarget × Nat :=
  (refEl, forceFocusCount)

/-- Framework behavior of `useEffect`: the effect re-runs on an update
exactly when the dependency tuple changed since the last run. -/
def effectShouldRerun (oldDeps newDeps : Option FocusTarget × Nat) : Bool :=
  decide (oldDeps ≠ newDeps)

/-- Setup-time result of `useAutofocus` (hooks.js lines 33-55): which effect
function was registered via `useEffect` (none in the mobile branch, which
returns before reaching `useEffect`), and what the returned trigger does to
the `forceFocusCount` state (the mobile branch returns `() => \x7b\x7d`). -/
structure AutofocusSetup where
  registeredEffect : Option (Option FocusTarget → Option FocusTarget)
  triggerAction : Nat → Nat

/-- Embedding of `useAutofocus` at setup time, parameterised by
`comp.env.isSmall`. -/
def useAutofocus (isSmall : Bool) : AutofocusSetup :=
  if isSmall then
    { registeredEffect := none, triggerAction := fun n => n }
  else
    { registeredEffect := some autofocusEffect, triggerAction := focusOnUpdate }

/-! ## Claims about the service guard -/

/-- C1: invoking a destruction-guarded service method while the owning
component status is DESTROYED (code 2) rejects with "Component is destroyed"
and never invokes the underlying implementation.  The outcome is the same for
every later status and every possible settlement of the underlying call, so
it is fixed during the synchronous prefix of the wrapper call, before the
underlying function could run. -/
theorem protectMethod_after_destroy (α : Type) (statusAfterAwait : Nat)
    (fnOutcome : Settled α) :
    protectMethodCall 2 statusAfterAwait fnOutcome =
      { fnInvoked := false, outcome := Outcome.rejected "Component is destroyed" } := by
  simp [protectMethodCall]

/-- C2 counterexample: a guarded call that starts before destruction
(status 0) whose underlying promise rejects after the component is destroyed
(status 2 at settlement) makes the wrapper reject with the underlying error:
the returned promise settles, and the underlying result is propagated, in
contradiction with the claim that it stays permanently pending. -/
theorem protectMethod_midflight_rejection_settles :
    (protectMethodCall (α := Nat) 0 2 (Settled.rejected "boom")).outcome
        = Outcome.rejected "boom"
    ∧ (protectMethodCall (α := Nat) 0 2 (Settled.rejected "boom")).outcome
        ≠ (Outcome.pending : Outcome Nat)
    ∧ (protectMethodCall (α := Nat) 0 2 (Settled.rejected "boom")).fnInvoked = true := by
  decide

/-- C2 amended: for a guarded call begun before destruction, if the component
is destroyed by the time the underlying call settles, then a fulfilled
underlying call yields a permanently pending wrapper promise (the value is
never propagated), while a rejected underlying call propagates its rejection
to the caller. -/
theorem protectMethod_midflight (α : Type) (statusAtCall : Nat)
    (h : statusAtCall ≠ 2) :
    (∀ v : α, protectMethodCall statusAtCall 2 (Settled.fulfilled v) =
        { fnInvoked := true, outcome := Outcome.pending })
    ∧ (∀ err : String, protectMethodCall (α := α) statusAtCall 2 (Settled.rejected err) =
        { fnInvoked := true, outcome := Outcome.rejected err }) := by
  constructor
  · intro v
    simp [protectMethodCall, h]
  · intro err
    simp [protectMethodCall, h]

/-- Witness for the amended C2 at status 0 with concrete settlements. -/
theorem protectMethod_midflight_witness :
    protectMethodCall 0 2 (Settled.fulfilled 5) =
      { fnInvoked := true, outcome := Outcome.pending }
    ∧ protectMethodCall (α := Nat) 0 2 (Settled.rejected "late failure") =
      { fnInvoked := true, outcome := Outcome.rejected "late failure" } :=
  ⟨(protectMethod_midflight Nat 0 (by decide)).1 5,
   (protectMethod_midflight Nat 0 (by decide)).2 "late failure"⟩

/-! ## Claims about useService -/

/-- C6: requesting a service name that is not a key of the environment
service registry produces the lookup error naming the service; the error
branch is taken before any service value is read or wrapped. -/
theorem useService_missing (σ : Type) (metadata : List (String × List String))
    (services : List (String × σ)) (serviceIsFunction : σ → Bool)
    (serviceName : String) (h : serviceName ∉ services.map Prod.fst) :
    useService metadata services serviceIsFunction serviceName
      = UseServiceResult.error ("Service " ++ serviceName ++ " is not available") := by
  unfold useService
  rw [lookup_eq_none_of_not_mem_keys services serviceName h]

/-- Witness for C6: an empty metadata map and a registry holding only "ui",
queried for "orm". -/
theorem useService_missing_witness :
    useService [] [("ui", (9 : Nat))] (fun _ => false) "orm"
      = UseServiceResult.error ("Service " ++ "orm" ++ " is not available") :=
  useService_missing Nat [] [("ui", 9)] (fun _ => false) "orm" (by decide)

/-- C10: a service registered under a name that is not a key of
SERVICES_METADATA is returned as the registry value itself: no wrapping, no
copy, the very value found by the lookup. -/
theorem useService_unguarded (σ : Type) (metadata : List (String × List String))
    (services : List (String × σ)) (serviceIsFunction : σ → Bool)
    (serviceName : String) (v : σ)
    (hlook : services.lookup serviceName = some v)
    (hmeta : serviceName ∉ metadata.map Prod.fst) :
    useService metadata services serviceIsFunction serviceName
      = UseServiceResult.value v := by
  unfold useService
  rw [hlook, lookup_eq_none_of_not_mem_keys metadata serviceName hmeta]

/-- Witness for C10: metadata guards only "orm"; the "ui" service value 9 is
returned untouched. -/
theorem useService_unguarded_witness :
    useService [("orm", ["read"])] [("ui", (9 : Nat))] (fun _ => false) "ui"
      = UseServiceResult.value 9 :=
  useService_unguarded Nat [("orm", ["read"])] [("ui", 9)] (fun _ => false) "ui" 9
    (by decide) (by decide)

/-! ## Claims about useListener -/

/-- Delegation walk characterisation: the loop finds a target exactly when
some element of the chain truncated at the component root matches the
selector. -/
theorem delegatedHandlerFires_eq_any (matchesSel : Nat → Bool) (compEl : Nat)
    (chain : List Nat) :
    delegatedHandlerFires matchesSel compEl chain
      = (chainStoppingAt compEl chain).any matchesSel := by
  induction chain with
  | nil => rfl
  | cons e rest ih =>
    by_cases hm : matchesSel e
    · by_cases he : e = compEl <;>
        simp [delegatedHandlerFires, chainStoppingAt, hm, he]
    · by_cases he : e = compEl
      · simp [delegatedHandlerFires, chainStoppingAt, hm, he]
      · simp [delegatedHandlerFires, chainStoppingAt, hm, he, ih]

/-- C3: with a selector, a dispatched event invokes the handler exactly when
the component root element lies on the ancestor chain of the event target
(otherwise the event never reaches the listener registered on the root) and
some element of that chain, walked from the target and stopping at the
component root, matches the selector; whenever the handler is invoked, its
`this` context is the component. -/
theorem useListener_delegation (matchesSel : Nat → Bool) (comp compEl : Nat)
    (chain : List Nat) (ev : Nat) :
    (dispatchDelegated matchesSel comp compEl chain ev = some (comp, ev)
      ↔ compEl ∈ chain ∧ ∃ e ∈ chainStoppingAt compEl chain, matchesSel e = true)
    ∧ (∀ r : Nat × Nat, dispatchDelegated matchesSel comp compEl chain ev = some r →
        r = (comp, ev)) := by
  constructor
  · by_cases hmem : compEl ∈ chain
    · rw [dispatchDelegated, if_pos hmem, delegatedHandlerFires_eq_any]
      by_cases hf : (chainStoppingAt compEl chain).any matchesSel
      · rw [List.any_eq_true] at hf
        simp [hmem, List.any_eq_true, hf]
      · rw [List.any_eq_true] at hf
        simp [hmem, List.any_eq_true, hf]
    · simp [dispatchDelegated, hmem]
  · intro r hr
    unfold dispatchDelegated at hr
    by_cases hmem : compEl ∈ chain
    · rw [if_pos hmem] at hr
      by_cases hf : delegatedHandlerFires matchesSel compEl chain
      · rw [if_pos hf] at hr
        exact (Option.some_inj.mp hr).symm
      · rw [if_neg hf] at hr
        exact absurd hr (by simp)
    · rw [if_neg hmem] at hr
      exact absurd hr (by simp)

/-- Witness for C3: root element 1 listens; the target 5 matches the
selector, so the handler is invoked with the component 0 as context and the
event object 7. -/
theorem useListener_delegation_witness :
    dispatchDelegated (fun e => e == 5) 0 1 [5, 1, 9] 7 = some (0, 7) :=
  (useListener_delegation (fun e => e == 5) 0 1 [5, 1, 9] 7).1.mpr (by decide)

/-- C5: whenever the resolved handler argument (the second argument when it
is not a string, the third otherwise) is not a function, `useListener` throws
"The handler must be a function"; the error is thrown before `useEffect`
runs, so the result is the error and not a registration. -/
theorem useListener_nonfunction_handler (eventName : String) (arg1 arg2 : JSArg)
    (h : (resolveListenerArgs arg1 arg2).handler.isFunctionTy = false) :
    useListener eventName arg1 arg2
      = ListenerSetup.error "The handler must be a function" := by
  cases harg : (resolveListenerArgs arg1 arg2).handler with
  | func id =>
    rw [harg] at h
    exact absurd h (by simp [JSArg.isFunctionTy])
  | str s => simp [useListener, harg]
  | undef => simp [useListener, harg]
  | other => simp [useListener, harg]

/-- Witness for C5: the second argument is a non-string non-function value,
so it resolves to the handler and the call throws. -/
theorem useListener_nonfunction_handler_witness :
    useListener "click" JSArg.other JSArg.undef
      = ListenerSetup.error "The handler must be a function" :=
  useListener_nonfunction_handler "click" JSArg.other JSArg.undef (by decide)

/-! ## Claims about useBus -/

/-- Dispatch after appending a registration for the dispatched event invokes
the previous listeners and then the new one. -/
theorem dispatch_addEventListener (b : Bus) (eventName : String) (l : BoundListener) :
    dispatch (addEventListener b eventName l) eventName = dispatch b eventName ++ [l] := by
  simp [dispatch, addEventListener, List.filter_append]

/-- Any listener registered for an event is invoked by a dispatch of that
event. -/
theorem mem_dispatch_of_mem (b : Bus) (eventName : String) (l : BoundListener)
    (h : (eventName, l) ∈ b) : l ∈ dispatch b eventName := by
  simp only [dispatch, List.mem_map, List.mem_filter]
  exact ⟨(eventName, l), ⟨h, by simp⟩, rfl⟩

/-- Removing a listener that was just appended, and that had no earlier
registration, restores the previous bus. -/
theorem removeEventListener_addEventListener (b : Bus) (eventName : String)
    (l : BoundListener) (h : (eventName, l) ∉ b) :
    removeEventListener (addEventListener b eventName l) eventName l = b := by
  induction b with
  | nil => simp [addEventListener, removeEventListener]
  | cons p rest ih =>
    cases p with
    | mk e x =>
      simp only [List.mem_cons, not_or] at h
      have hne : ¬(e = eventName ∧ x = l) := by
        rintro ⟨rfl, rfl⟩
        exact h.1 rfl
      simp only [addEventListener, List.cons_append, removeEventListener, if_neg hne,
        List.append_eq]
      have := ih h.2
      simp only [addEventListener] at this
      rw [this]

/-- C4: mounting `useBus(bus, eventName, callback)` registers
`callback.bind(component)`; while mounted, each dispatch of the event invokes
that bound listener exactly once (the bound function is fresh, so it is not
on the bus beforehand), every newly invoked listener carries the component as
its bound context, the cleanup returned by the effect restores the bus, and
after teardown a dispatch never invokes the bound listener. -/
theorem useBus_lifecycle (bus : Bus) (eventName : String) (cb comp : Nat)
    (hfresh : ({ cb := cb, ctx := comp } : BoundListener) ∉ dispatch bus eventName) :
    ((dispatch (useBusEffect bus eventName cb comp).1 eventName).count
        ({ cb := cb, ctx := comp } : BoundListener) = 1)
    ∧ (∀ l ∈ dispatch (useBusEffect bus eventName cb comp).1 eventName,
        l ∉ dispatch bus eventName → l.ctx = comp)
    ∧ ((useBusEffect bus eventName cb comp).2 (useBusEffect bus eventName cb comp).1
        = bus)
    ∧ (({ cb := cb, ctx := comp } : BoundListener)
        ∉ dispatch ((useBusEffect bus eventName cb comp).2
            (useBusEffect bus eventName cb comp).1) eventName) := by
  have hpair : (eventName, ({ cb := cb, ctx := comp } : BoundListener)) ∉ bus := by
    intro hmem
    exact hfresh (mem_dispatch_of_mem bus eventName _ hmem)
  have h1 : (useBusEffect bus eventName cb comp).1
      = addEventListener bus eventName { cb := cb, ctx := comp } := rfl
  have hclean : (useBusEffect bus eventName cb comp).2
      (useBusEffect bus eventName cb comp).1 = bus := by
    rw [h1]
    exact removeEventListener_addEventListener bus eventName _ hpair
  refine ⟨?_, ?_, hclean, ?_⟩
  · rw [h1, dispatch_addEventListener, List.count_append]
    rw [List.count_eq_zero.mpr hfresh]
    simp
  · intro l hl hnot
    rw [h1, dispatch_addEventListener] at hl
    rcases List.mem_append.mp hl with hold | hnew
    · exact absurd hold hnot
    · rw [List.mem_singleton.mp hnew]
  · rw [hclean]
    exact hfresh

/-- Witness for C4 on an empty bus: callback 4 bound to component 6,
event "change". -/
theorem useBus_lifecycle_witness :
    ((dispatch (useBusEffect [] "change" 4 6).1 "change").count
        ({ cb := 4, ctx := 6 } : BoundListener) = 1)
    ∧ ((useBusEffect [] "change" 4 6).2 (useBusEffect [] "change" 4 6).1 = []) :=
  ⟨(useBus_lifecycle [] "change" 4 6 (by decide)).1,
   (useBus_lifecycle [] "change" 4 6 (by decide)).2.2.1⟩

/-! ## Claims about useAutofocus -/

/-- Membership test used by the effect body: `includes` over the two-element
tag list is the disjunction of the two tag equalities. -/
theorem contains_input_textarea (s : String) :
    ((["INPUT", "TEXTAREA"].contains s) = true) ↔ (s = "INPUT" ∨ s = "TEXTAREA") := by
  simp [List.contains]

/-- C7: in the non-mobile branch, the trigger returned by `useAutofocus`
increments the force-focus counter, which changes the dependency tuple of the
registered effect even when the element reference is unchanged, so the
framework re-runs the effect on the next update; the registered effect is the
focusing effect, and running it on a present element applies focus to it. -/
theorem useAutofocus_trigger_rerun (refEl : Option FocusTarget) (n : Nat) :
    effectShouldRerun (autofocusDeps refEl n) (autofocusDeps refEl (focusOnUpdate n)) = true
    ∧ (useAutofocus false).registeredEffect = some autofocusEffect
    ∧ (∀ el : FocusTarget, refEl = some el →
        ∃ el2 : FocusTarget, autofocusEffect refEl = some el2 ∧ el2.focused = true) := by
  refine ⟨?_, rfl, ?_⟩
  · simp [effectShouldRerun, autofocusDeps, focusOnUpdate]
  · intro el hel
    subst hel
    simp only [autofocusEffect]
    by_cases htag : (el.tagName = "INPUT" ∨ el.tagName = "TEXTAREA")
    · simp [htag]
    · simp [htag]

/-- Witness for C7: a DIV element, counter 0. -/
theorem useAutofocus_trigger_rerun_witness :
    effectShouldRerun
        (autofocusDeps (some { tagName := "DIV", value := "", selectionStart := 0,
                               selectionEnd := 0, focused := false }) 0)
        (autofocusDeps (some { tagName := "DIV", value := "", selectionStart := 0,
                               selectionEnd := 0, focused := false }) (focusOnUpdate 0))
      = true
    ∧ ∃ el2 : FocusTarget,
        autofocusEffect (some { tagName := "DIV", value := "", selectionStart := 0,
                                selectionEnd := 0, focused := false }) = some el2
        ∧ el2.focused = true :=
  ⟨(useAutofocus_trigger_rerun
      (some { tagName := "DIV", value := "", selectionStart := 0,
              selectionEnd := 0, focused := false }) 0).1,
   (useAutofocus_trigger_rerun
      (some { tagName := "DIV", value := "", selectionStart := 0,
              selectionEnd := 0, focused := false }) 0).2.2
     { tagName := "DIV", value := "", selectionStart := 0,
       selectionEnd := 0, focused := false } rfl⟩

/-- C8: when the referenced element is present, the effect focuses it; for
INPUT and TEXTAREA elements both selection bounds become the length of the
current value (caret at the end), and for every other tag the selection
bounds are left unchanged. -/
theorem autofocusEffect_spec (el el2 : FocusTarget)
    (h : autofocusEffect (some el) = some el2) :
    el2.focused = true
    ∧ (el.tagName = "INPUT" ∨ el.tagName = "TEXTAREA" →
        el2.selectionStart = el.value.length ∧ el2.selectionEnd = el.value.length)
    ∧ (¬(el.tagName = "INPUT" ∨ el.tagName = "TEXTAREA") →
        el2.selectionStart = el.selectionStart ∧ el2.selectionEnd = el.selectionEnd
        ∧ el2.tagName = el.tagName ∧ el2.value = el.value) := by
  simp only [autofocusEffect] at h
  by_cases htag : (["INPUT", "TEXTAREA"].contains el.tagName) = true
  · rw [if_pos htag] at h
    rw [Option.some_inj] at h
    subst h
    refine ⟨rfl, fun _ => ⟨rfl, rfl⟩, fun hno => ?_⟩
    exact absurd ((contains_input_textarea el.tagName).mp htag) hno
  · rw [if_neg htag] at h
    rw [Option.some_inj] at h
    subst h
    refine ⟨rfl, fun hyes => ?_, fun _ => ⟨rfl, rfl, rfl, rfl⟩⟩
    exact absurd ((contains_input_textarea el.tagName).mpr hyes) htag

/-- Witness for C8: an INPUT with value "ab" ends focused with both selection
bounds at 2. -/
theorem autofocusEffect_spec_witness :
    ({ tagName := "INPUT", value := "ab", selectionStart := 2,
       selectionEnd := 2, focused := true } : FocusTarget).focused = true
    ∧ (({ tagName := "INPUT", value := "ab", selectionStart := 2,
          selectionEnd := 2, focused := true } : FocusTarget).selectionStart
          = ("ab" : String).length
        ∧ ({ tagName := "INPUT", value := "ab", selectionStart := 2,
             selectionEnd := 2, focused := true } : FocusTarget).selectionEnd
          = ("ab" : String).length) :=
  ⟨(autofocusEffect_spec
      { tagName := "INPUT", value := "ab", selectionStart := 0,
        selectionEnd := 0, focused := false }
      { tagName := "INPUT", value := "ab", selectionStart := 2,
        selectionEnd := 2, focused := true } (by decide)).1,
   (autofocusEffect_spec
      { tagName := "INPUT", value := "ab", selectionStart := 0,
        selectionEnd := 0, focused := false }
      { tagName := "INPUT", value := "ab", selectionStart := 2,
        selectionEnd := 2, focused := true } (by decide)).2.1 (Or.inl rfl)⟩

/-- C9: with `env.isSmall` set, `useAutofocus` registers no effect (the
mobile branch returns before `useEffect`) and the returned trigger leaves the
counter state unchanged however many times it is invoked, so nothing is ever
focused. -/
theorem useAutofocus_mobile_noop (n k : Nat) :
    (useAutofocus true).registeredEffect = none
    ∧ ((useAutofocus true).triggerAction)^[k] n = n := by
  constructor
  · rfl
  · have h : (useAutofocus true).triggerAction = id := rfl
    rw [h, Function.iterate_id, id]

end Hooks
